import Mathlib

/-!
Verification of the batchexecute protocol codec (`src/nlm/api/batchexecute.py`).

The Python module is shallowly embedded: the JSON values the code manipulates
become the inductive `JValue`; the standard-library calls `json.loads` /
`json.dumps` are modelled by the executable `jsonParse` / `jsonDumps`
(covering the integer fragment of JSON numbers — the claims under study never
involve floating-point payloads); Python string helpers (`str.lstrip`,
`str.strip`, `str.split`, `int(...)`) are modelled character-exactly.
Exceptions become `Except` errors: `DecodeErr` mirrors the
`BatchExecuteError` messages raised by the decoder (`emptyBody`,
`framing`/`incompleteChunk`, `invalidJson`, `emptyResult`) plus `typeError`
for the uncaught `TypeError`/`KeyError` a non-sequence record would raise.
-/

namespace Batchexecute

/-- A JSON value as manipulated by the Python code (`json.loads` output).
Numbers are restricted to the integer fragment. -/
inductive JValue where
  | null
  | bool (b : Bool)
  | num (n : Int)
  | str (s : String)
  | arr (xs : List JValue)
  | obj (kvs : List (String × JValue))

/-! ### Python string primitives -/

/-- The character set of `raw.lstrip(")]}'")`: the anti-hijacking prefix chars. -/
def isPrefixStripChar (c : Char) : Bool :=
  c = ')' || c = ']' || c = '\x7d' || c = '\''

/-- `raw.lstrip(")]}'")`: drop every leading char belonging to the set. -/
def pyLstripPrefix (s : String) : String :=
  String.mk (s.toList.dropWhile isPrefixStripChar)

/-- Python whitespace for `str.strip()`. -/
def isPyWs (c : Char) : Bool :=
  c = ' ' || c = '\t' || c = '\n' || c = '\r' || c = '\x0b' || c = '\x0c'

/-- `s.strip()`: drop leading and trailing whitespace. -/
def pystrip (s : String) : String :=
  String.mk (((s.toList.dropWhile isPyWs).reverse.dropWhile isPyWs).reverse)

/-- `s.split('\n')` on a character list. -/
def splitLinesChars : List Char → List (List Char)
  | [] => [[]]
  | c :: cs =>
    if c = '\n' then [] :: splitLinesChars cs
    else
      match splitLinesChars cs with
      | [] => [[c]]
      | l :: ls => (c :: l) :: ls

/-- `s.split('\n')`. -/
def splitLines (s : String) : List String :=
  (splitLinesChars s.toList).map String.mk

def isDigitChar (c : Char) : Bool := '0' ≤ c && c ≤ '9'

/-- Digit groups separated by single underscores (Python int literal body):
nonempty, starts and ends with a digit, no two consecutive underscores. -/
def digitsUnderscoreOK : List Char → Bool
  | [] => false
  | [c] => isDigitChar c
  | c :: c2 :: rest =>
    isDigitChar c &&
      (if c2 = '_' then
        match rest with
        | [] => false
        | r1 :: _ => isDigitChar r1 && digitsUnderscoreOK rest
      else digitsUnderscoreOK (c2 :: rest))

/-- Numeric value of a digit string, ignoring underscores. -/
def digitsVal (cs : List Char) : Nat :=
  cs.foldl (fun acc c => if c = '_' then acc else acc * 10 + (c.toNat - 48)) 0

/-- Model of Python `int(s)` for a string argument: surrounding whitespace is
tolerated, then an optional sign and a nonempty underscore-grouped digit
string. Returns `none` where Python raises `ValueError`. -/
def pyInt (s : String) : Option Int :=
  let cs := (pystrip s).toList
  match cs with
  | [] => none
  | c :: rest =>
    let (neg, body) : Bool × List Char :=
      if c = '-' then (true, rest)
      else if c = '+' then (false, rest)
      else (false, cs)
    if digitsUnderscoreOK body then
      some (if neg then -(digitsVal body : Int) else (digitsVal body : Int))
    else none

/-! ### Model of `json.dumps` (default separators, ASCII output) -/

def hexDigit (n : Nat) : Char :=
  if n < 10 then Char.ofNat (48 + n) else Char.ofNat (97 + (n - 10))

/-- `\uXXXX` escape for a code point below 0x10000. -/
def uEscape (n : Nat) : List Char :=
  ['\\', 'u', hexDigit (n / 4096 % 16), hexDigit (n / 256 % 16),
   hexDigit (n / 16 % 16), hexDigit (n % 16)]

/-- How `json.dumps` renders one character inside a string literal
(`ensure_ascii=True` default). -/
def dumpChar (c : Char) : List Char :=
  if c = '"' then ['\\', '"']
  else if c = '\\' then ['\\', '\\']
  else if c = '\n' then ['\\', 'n']
  else if c = '\t' then ['\\', 't']
  else if c = '\r' then ['\\', 'r']
  else if c = '\x08' then ['\\', 'b']
  else if c = '\x0c' then ['\\', 'f']
  else if c.toNat < 32 || c.toNat > 126 then uEscape c.toNat
  else [c]

/-- `json.dumps` of a string. -/
def dumpString (s : String) : String :=
  String.mk ('"' :: (s.toList.flatMap dumpChar) ++ ['"'])

mutual
/-- Model of `json.dumps` with Python's default separators. -/
def jsonDumps : JValue → String
  | JValue.null => "null"
  | JValue.bool true => "true"
  | JValue.bool false => "false"
  | JValue.num n => toString n
  | JValue.str s => dumpString s
  | JValue.arr xs => "[" ++ dumpsList xs ++ "]"
  | JValue.obj kvs => "\x7b" ++ dumpsObj kvs ++ "\x7d"

def dumpsList : List JValue → String
  | [] => ""
  | [x] => jsonDumps x
  | x :: y :: rest => jsonDumps x ++ ", " ++ dumpsList (y :: rest)

def dumpsObj : List (String × JValue) → String
  | [] => ""
  | [(k, v)] => dumpString k ++ ": " ++ jsonDumps v
  | (k, v) :: kv2 :: rest => dumpString k ++ ": " ++ jsonDumps v ++ ", " ++ dumpsObj (kv2 :: rest)
end

/-! ### Model of `json.loads` (strict RFC 8259, integer numbers) -/

def isJsonWs (c : Char) : Bool :=
  c = ' ' || c = '\t' || c = '\n' || c = '\r'

def skipWs : List Char → List Char
  | c :: cs => if isJsonWs c then skipWs cs else c :: cs
  | [] => []

def hexVal (c : Char) : Option Nat :=
  if '0' ≤ c && c ≤ '9' then some (c.toNat - 48)
  else if 'a' ≤ c && c ≤ 'f' then some (c.toNat - 87)
  else if 'A' ≤ c && c ≤ 'F' then some (c.toNat - 55)
  else none

/-- String-literal body parser (after the opening quote), strict about
control characters and escape validity like `json.loads`. -/
def parseStringBody (fuel : Nat) (acc : List Char) (cs : List Char) :
    Option (String × List Char) :=
  match fuel with
  | 0 => none
  | fuel + 1 =>
    match cs with
    | [] => none
    | c :: rest =>
      if c = '"' then some (String.mk acc.reverse, rest)
      else if c = '\\' then
        match rest with
        | [] => none
        | e :: rest2 =>
          if e = 'u' then
            match rest2 with
            | a :: b :: c2 :: d :: rest3 =>
              match hexVal a, hexVal b, hexVal c2, hexVal d with
              | some va, some vb, some vc, some vd =>
                parseStringBody fuel
                  (Char.ofNat (((va * 16 + vb) * 16 + vc) * 16 + vd) :: acc) rest3
              | _, _, _, _ => none
            | _ => none
          else
            match
              (if e = '"' then some '"'
               else if e = '\\' then some '\\'
               else if e = '/' then some '/'
               else if e = 'b' then some '\x08'
               else if e = 'f' then some '\x0c'
               else if e = 'n' then some '\n'
               else if e = 'r' then some '\r'
               else if e = 't' then some '\t'
               else none) with
            | some ch => parseStringBody fuel (ch :: acc) rest2
            | none => none
      else if c.toNat < 32 then none
      else parseStringBody fuel (c :: acc) rest

def takeDigits : List Char → List Char × List Char
  | c :: cs =>
    if isDigitChar c then
      let (ds, r) := takeDigits cs
      (c :: ds, r)
    else ([], c :: cs)
  | [] => ([], [])

def digitsToNat (ds : List Char) : Nat :=
  ds.foldl (fun acc c => acc * 10 + (c.toNat - 48)) 0

/-- JSON number parser, integer fragment only: `-? (0 | [1-9][0-9]*)` with no
fraction or exponent (floating-point JSON is outside this model). -/
def parseNumber (cs : List Char) : Option (Int × List Char) :=
  let (neg, cs1) : Bool × List Char :=
    match cs with
    | '-' :: r => (true, r)
    | _ => (false, cs)
  match cs1 with
  | [] => none
  | d :: rest =>
    if d = '0' then
      some ((0 : Int), rest)
    else if isDigitChar d then
      let (ds, r) := takeDigits rest
      let v : Int := (digitsToNat (d :: ds) : Nat)
      some (if neg then -v else v, r)
    else none

mutual
/-- Model of the `json.loads` grammar (value position; leading whitespace
already consumed by the caller). -/
def parseValue (fuel : Nat) (cs : List Char) : Option (JValue × List Char) :=
  match fuel with
  | 0 => none
  | fuel + 1 =>
    match cs with
    | [] => none
    | c :: rest =>
      if c = 'n' then
        match rest with
        | 'u' :: 'l' :: 'l' :: r => some (JValue.null, r)
        | _ => none
      else if c = 't' then
        match rest with
        | 'r' :: 'u' :: 'e' :: r => some (JValue.bool true, r)
        | _ => none
      else if c = 'f' then
        match rest with
        | 'a' :: 'l' :: 's' :: 'e' :: r => some (JValue.bool false, r)
        | _ => none
      else if c = '"' then
        match parseStringBody fuel [] rest with
        | some (s, r) => some (JValue.str s, r)
        | none => none
      else if c = '[' then
        match skipWs rest with
        | ']' :: r => some (JValue.arr [], r)
        | cs2 => parseElems fuel cs2 []
      else if c = '\x7b' then
        match skipWs rest with
        | '\x7d' :: r => some (JValue.obj [], r)
        | cs2 => parseMembers fuel cs2 []
      else
        match parseNumber cs with
        | some (n, r) => some (JValue.num n, r)
        | none => none

/-- Array elements after `[` (at least one element present). -/
def parseElems (fuel : Nat) (cs : List Char) (acc : List JValue) :
    Option (JValue × List Char) :=
  match fuel with
  | 0 => none
  | fuel + 1 =>
    match parseValue fuel cs with
    | none => none
    | some (v, r) =>
      match skipWs r with
      | ',' :: r2 => parseElems fuel (skipWs r2) (v :: acc)
      | ']' :: r2 => some (JValue.arr (v :: acc).reverse, r2)
      | _ => none

/-- Object members after an opening brace (at least one member present). -/
def parseMembers (fuel : Nat) (cs : List Char) (acc : List (String × JValue)) :
    Option (JValue × List Char) :=
  match fuel with
  | 0 => none
  | fuel + 1 =>
    match cs with
    | '"' :: rest =>
      match parseStringBody fuel [] rest with
      | none => none
      | some (k, r) =>
        match skipWs r with
        | ':' :: r2 =>
          match parseValue fuel (skipWs r2) with
          | none => none
          | some (v, r3) =>
            match skipWs r3 with
            | ',' :: r4 => parseMembers fuel (skipWs r4) ((k, v) :: acc)
            | '\x7d' :: r4 => some (JValue.obj ((k, v) :: acc).reverse, r4)
            | _ => none
        | _ => none
    | _ => none
end

/-- Model of `json.loads`: the whole input must be one JSON value surrounded
by optional whitespace; `none` where Python raises `JSONDecodeError`. -/
def jsonParse (s : String) : Option JValue :=
  let cs := s.toList
  match parseValue (4 * cs.length + 16) (skipWs cs) with
  | some (v, rest) =>
    match skipWs rest with
    | [] => some v
    | _ => none
  | none => none

/-! ### Data model of the client (`Config` omitted apart from the auth token) -/

/-- `RPC` dataclass: one call. -/
structure RPC where
  id : String
  args : List JValue
  index : String := "generic"
  urlParams : List (String × String) := []

/-- `Response` dataclass: one decoded record. `data` is `JValue.null` where
Python stores `None`. -/
structure Response where
  id : JValue
  data : JValue
  index : Int := 0
  error : String := ""

/-- The typed errors the decoder can raise, mirroring the
`BatchExecuteError` messages plus the uncaught Python exceptions. -/
inductive DecodeErr where
  /-- "Empty response after trimming prefix" -/
  | emptyBody
  /-- "Invalid JSON" (plain mode) -/
  | invalidJson
  /-- "Invalid chunk length: invalid syntax" -/
  | framing
  /-- "Incomplete chunk" -/
  | incompleteChunk
  /-- "No valid responses found" -/
  | emptyResult
  /-- An uncaught `TypeError`/`KeyError` (`len()` or indexing on a
  non-sequence record). -/
  | typeError
deriving DecidableEq

/-! ### `ReqIDGenerator` -/

/-- State of `ReqIDGenerator`: a fixed random base (drawn once from
[1000, 9999]) and a sequence counter. -/
structure ReqIDGenerator where
  base : Nat
  sequence : Nat

/-- `ReqIDGenerator.__init__` for a given draw of `random.randint(1000, 9999)`. -/
def ReqIDGenerator.init (base : Nat) : ReqIDGenerator := ⟨base, 0⟩

/-- `next()`: returns `str(base + sequence*100000)` and increments the counter. -/
def ReqIDGenerator.next (g : ReqIDGenerator) : String × ReqIDGenerator :=
  (toString (g.base + g.sequence * 100000), ⟨g.base, g.sequence + 1⟩)

/-- `reset()`: zero the sequence, keep the base. -/
def ReqIDGenerator.reset (g : ReqIDGenerator) : ReqIDGenerator := ⟨g.base, 0⟩

/-- The state after `n` calls to `next()`. -/
def ReqIDGenerator.stateAfter (g : ReqIDGenerator) : Nat → ReqIDGenerator
  | 0 => g
  | n + 1 => (g.stateAfter n).next.2

/-- The numeric value inside the string returned by the `n`-th (0-based)
call to `next()`. -/
def ReqIDGenerator.idNum (g : ReqIDGenerator) (n : Nat) : Nat :=
  (g.stateAfter n).base + (g.stateAfter n).sequence * 100000

/-! ### Envelope encoder (`build_rpc_data` and the body built in `execute`) -/

/-- `Client.build_rpc_data`: `[rpc.id, json.dumps(rpc.args), None, "generic"]`.
Note the fourth element is the hard-coded literal, not `rpc.index`. -/
def buildRpcData (rpc : RPC) : JValue :=
  JValue.arr [JValue.str rpc.id, JValue.str (jsonDumps (JValue.arr rpc.args)),
              JValue.null, JValue.str "generic"]

/-- The form body built in `Client.execute` lines 126-134:
`f.req = json.dumps([envelope])`, `at = auth_token`. -/
def buildFormData (rpcs : List RPC) (authToken : String) : List (String × String) :=
  let envelope := rpcs.map buildRpcData
  let reqBody := jsonDumps (JValue.arr [JValue.arr envelope])
  [("f.req", reqBody), ("at", authToken)]

/-! ### Response decoder -/

/-- `len(v)` for a JSON value: sequences/strings/dicts have a length, other
values raise `TypeError` (`none`). -/
def pyLen : JValue → Option Nat
  | JValue.arr xs => some xs.length
  | JValue.str s => some s.length
  | JValue.obj kvs => some kvs.length
  | _ => none

/-- `v[i]` for an integer index: lists index positionally, strings yield
one-character strings, dicts raise `KeyError` on an integer key (JSON object
keys are strings), other values raise `TypeError`. -/
def jGet : JValue → Nat → Option JValue
  | JValue.arr xs, i => xs.get? i
  | JValue.str s, i => (s.toList.get? i).map (fun c => JValue.str (String.mk [c]))
  | _, _ => none

/-- `for x in v`: lists yield elements, strings yield one-character strings,
dicts yield their keys; other values raise `TypeError` (`none`). -/
def jIter : JValue → Option (List JValue)
  | JValue.arr xs => some xs
  | JValue.str s => some (s.toList.map (fun c => JValue.str (String.mk [c])))
  | JValue.obj kvs => some (kvs.map (fun kv => JValue.str kv.1))
  | _ => none

/-- The index computation shared by both decode paths (lines 214-220 and
301-307): `"generic"` maps to 0; any other string is `int(...)`-parsed with
silent fallback to 0; non-strings leave the default 0. -/
def indexVal : JValue → Int
  | JValue.str s => if s = "generic" then 0 else (pyInt s).getD 0
  | _ => 0

/-- `'"' + chunk + '"'` — the string handed to `json.loads` by the
unescape fallback. -/
def quoteStr (s : String) : String :=
  String.mk ('"' :: s.toList ++ ['"'])

/-- Chunk-line parsing (lines 258-267): direct `json.loads`; on failure
re-read the whole line as a JSON string literal and parse the unescaped
result; `none` means the chunk is skipped. -/
def parseChunk (chunk : String) : Option JValue :=
  match jsonParse chunk with
  | some v => some v
  | none =>
    match jsonParse (quoteStr chunk) with
    | some (JValue.str u) => jsonParse u
    | _ => none

/-- Payload handling of the chunked path (lines 286-298): a string payload is
JSON-parsed (directly, then via the unescape fallback) and re-serialized; if
both parses fail the raw string is kept; any non-string (including `null`)
leaves `data = None`. -/
def chunkedPayload : JValue → JValue
  | JValue.str s =>
    match jsonParse s with
    | some v => JValue.str (jsonDumps v)
    | none =>
      match jsonParse (quoteStr s) with
      | some (JValue.str u) =>
        match jsonParse u with
        | some v => JValue.str (jsonDumps v)
        | none => JValue.str s
      | _ => JValue.str s
  | _ => JValue.null

/-- One `rpc_data` item of the chunked loop (lines 270-309): `none` in the
result means the item was skipped, `some` that a `Response` was appended. -/
def stepChunked (d : JValue) : Except DecodeErr (Option Response) :=
  match pyLen d with
  | none => Except.error DecodeErr.typeError
  | some n =>
    if n < 7 then Except.ok none
    else
      match jGet d 0 with
      | none => Except.error DecodeErr.typeError
      | some t =>
        match t with
        | JValue.str tag =>
          if tag = "wrb.fr" then
            match jGet d 1, jGet d 2, jGet d 6 with
            | some f1, some f2, some f6 =>
              Except.ok (some ⟨f1, chunkedPayload f2, indexVal f6, ""⟩)
            | _, _, _ => Except.error DecodeErr.typeError
          else Except.ok none
        | _ => Except.ok none

/-- One `rpc_data` item of the plain loop (lines 201-222): field 2 is passed
through unchanged. -/
def stepPlain (d : JValue) : Except DecodeErr (Option Response) :=
  match pyLen d with
  | none => Except.error DecodeErr.typeError
  | some n =>
    if n < 7 then Except.ok none
    else
      match jGet d 0 with
      | none => Except.error DecodeErr.typeError
      | some t =>
        match t with
        | JValue.str tag =>
          if tag = "wrb.fr" then
            match jGet d 1, jGet d 2, jGet d 6 with
            | some f1, some f2, some f6 =>
              Except.ok (some ⟨f1, f2, indexVal f6, ""⟩)
            | _, _, _ => Except.error DecodeErr.typeError
          else Except.ok none
        | _ => Except.ok none

/-- The `for rpc_data in rpc_batch` loop: items processed in order; a raised
exception discards everything. -/
def runItems (step : JValue → Except DecodeErr (Option Response)) :
    List JValue → Except DecodeErr (List Response)
  | [] => Except.ok []
  | d :: rest =>
    match step d with
    | Except.error e => Except.error e
    | Except.ok none => runItems step rest
    | Except.ok (some r) =>
      match runItems step rest with
      | Except.error e => Except.error e
      | Except.ok rs => Except.ok (r :: rs)

/-- Iterate a parsed chunk (or the whole plain-mode array) with the given
per-item rule. -/
def processBatch (step : JValue → Except DecodeErr (Option Response))
    (b : JValue) : Except DecodeErr (List Response) :=
  match jIter b with
  | none => Except.error DecodeErr.typeError
  | some items => runItems step items

/-- The chunked-mode line loop (lines 236-309): a length line, then one chunk
line; empty length lines are skipped; an unparseable length line raises;
an unparseable chunk line is skipped; kept records accumulate in order. -/
def processLines : List String → List Response → Except DecodeErr (List Response)
  | [], acc => Except.ok acc
  | l :: rest, acc =>
    let lengthStr := pystrip l
    if lengthStr = "" then processLines rest acc
    else
      match pyInt lengthStr with
      | none => Except.error DecodeErr.framing
      | some _ =>
        match rest with
        | [] => Except.error DecodeErr.incompleteChunk
        | chunk :: rest2 =>
          match parseChunk chunk with
          | none => processLines rest2 acc
          | some batch =>
            match processBatch stepChunked batch with
            | Except.error e => Except.error e
            | Except.ok newRs => processLines rest2 (acc ++ newRs)

/-- `Client.decode_chunked_response`. -/
def decodeChunkedResponse (raw : String) : Except DecodeErr (List Response) :=
  let r := pystrip (pyLstripPrefix raw)
  if r = "" then Except.error DecodeErr.emptyBody
  else
    match processLines (splitLines r) [] with
    | Except.error e => Except.error e
    | Except.ok resps =>
      match resps with
      | [] => Except.error DecodeErr.emptyResult
      | _ => Except.ok resps

/-- `Client.decode_response` (plain mode). Note: no strip of surrounding
whitespace, and no empty-result check — an empty list is returned as-is. -/
def decodeResponse (raw : String) : Except DecodeErr (List Response) :=
  let r := pyLstripPrefix raw
  if r = "" then Except.error DecodeErr.emptyBody
  else
    match jsonParse r with
    | none => Except.error DecodeErr.invalidJson
    | some data => processBatch stepPlain data

/-- Errors surfaced by `Client.execute`. -/
inductive ExecErr where
  /-- `UnauthorizedError` on HTTP 401. -/
  | unauthorized
  /-- `BatchExecuteError` for any other non-200 status. -/
  | transport (status : Nat)
  /-- A decoder error that escaped both decode attempts. -/
  | decodeFailed (e : DecodeErr)
  /-- `BatchExecuteError` "No valid responses found" when the decoder
  returned an empty list. -/
  | noValidResponses
deriving DecidableEq

/-- `Client.execute` after the HTTP exchange, as a function of the response
status and body (lines 158-187): status classification, chunked decode with
plain-mode fallback, then `return responses[0]`. -/
def executeOnBody (status : Nat) (body : String) : Except ExecErr Response :=
  if status ≠ 200 then
    if status = 401 then Except.error ExecErr.unauthorized
    else Except.error (ExecErr.transport status)
  else
    match
      (match decodeChunkedResponse body with
       | Except.ok rs => Except.ok rs
       | Except.error _ => decodeResponse body) with
    | Except.error e => Except.error (ExecErr.decodeFailed e)
    | Except.ok [] => Except.error ExecErr.noValidResponses
    | Except.ok (r :: _) => Except.ok r

/-- `Client.execute` as seen by a caller holding a batch of calls: the
request side uses `rpcs`, the response side does not depend on it. -/
def executeRpcs (_rpcs : List RPC) (status : Nat) (body : String) :
    Except ExecErr Response :=
  executeOnBody status body

/-- `Client.do`: the single-call convenience wrapper, `execute([rpc])`. -/
def doRpc (rpc : RPC) (status : Nat) (body : String) : Except ExecErr Response :=
  executeRpcs [rpc] status body

/-! ## Helper lemmas -/

/-- `int("")` raises `ValueError`. -/
theorem pyInt_empty : pyInt "" = none := rfl

/-- A string accepted by `int(...)` is not empty after stripping. -/
theorem pystrip_ne_empty_of_pyInt_isSome {l : String}
    (h : (pyInt (pystrip l)).isSome = true) : pystrip l ≠ "" := by
  intro he
  rw [he, pyInt_empty] at h
  exact Bool.false_ne_true h

/-- After `n` calls to `next()` the base is unchanged and the counter has
advanced by `n`. -/
theorem ReqIDGenerator.stateAfter_eq (g : ReqIDGenerator) (n : Nat) :
    g.stateAfter n = ⟨g.base, g.sequence + n⟩ := by
  induction n with
  | zero => rfl
  | succ n ih =>
    show (g.stateAfter n).next.2 = _
    rw [ih]
    show (⟨g.base, (g.sequence + n) + 1⟩ : ReqIDGenerator) = _
    rw [Nat.add_assoc]

/-! ## Claims -/

/-- C4: for every generator state and every `n`, the `n`-th and `(n+1)`-th
numeric ids returned by `next()` are strictly increasing and differ by
exactly 100000; the string returned is the decimal rendering of
`base + sequence*100000`; and `reset()` followed by `next()` returns the
original base value, i.e. exactly what the first `next()` of a fresh
generator with that base returns. -/
theorem reqid_generator_spec (g : ReqIDGenerator) (n : Nat) :
    g.idNum n < g.idNum (n + 1) ∧
    g.idNum (n + 1) = g.idNum n + 100000 ∧
    (g.stateAfter n).next.1 = toString (g.idNum n) ∧
    g.reset.next.1 = toString g.base ∧
    (ReqIDGenerator.init g.base).next.1 = toString g.base := by
  have h : ∀ m, g.idNum m = g.base + (g.sequence + m) * 100000 := by
    intro m
    unfold ReqIDGenerator.idNum
    rw [ReqIDGenerator.stateAfter_eq]
  refine ⟨?_, ?_, ?_, ?_, ?_⟩
  · rw [h, h]; omega
  · rw [h, h]; ring
  · rw [h, ReqIDGenerator.stateAfter_eq]
    rfl
  · show toString (g.base + 0 * 100000) = toString g.base
    norm_num
  · show toString (g.base + 0 * 100000) = toString g.base
    norm_num

/-- C5: in the chunked line loop, a length line that strips to the empty
string is skipped without producing a chunk, and a non-empty length line
rejected by `int(...)` raises the fatal framing error, discarding every
record accumulated so far and aborting the whole decode. -/
theorem chunked_length_line_handling (l : String) (rest : List String)
    (acc : List Response) :
    (pystrip l = "" → processLines (l :: rest) acc = processLines rest acc) ∧
    (pystrip l ≠ "" → pyInt (pystrip l) = none →
      processLines (l :: rest) acc = Except.error DecodeErr.framing) := by
  constructor
  · intro h
    rw [processLines.eq_def]
    simp [h]
  · intro h1 h2
    rw [processLines.eq_def]
    simp [h1, h2]

/-- Witness for C5, at a blank line and at the length line `"abc"`. -/
theorem chunked_length_line_handling_witness :
    processLines ["", "0", "[]"] [] = processLines ["0", "[]"] [] ∧
    processLines ["abc", "[]"] [] = Except.error DecodeErr.framing :=
  ⟨(chunked_length_line_handling "" ["0", "[]"] []).1 rfl,
   (chunked_length_line_handling "abc" ["[]"] []).2 (by decide) rfl⟩

/-- C6: a chunk line is first handed to `json.loads` directly; if that fails
the whole line is re-read as a JSON string literal and the unescaped result
is parsed instead; if that also fails, only this one chunk is skipped and the
loop continues with the remaining lines — the records of the other chunks
are unaffected. -/
theorem chunk_parse_fallback (chunk : String) :
    (∀ v, jsonParse chunk = some v → parseChunk chunk = some v) ∧
    (jsonParse chunk = none →
      parseChunk chunk =
        match jsonParse (quoteStr chunk) with
        | some (JValue.str u) => jsonParse u
        | _ => none) ∧
    (∀ l rest acc, (pyInt (pystrip l)).isSome = true → parseChunk chunk = none →
      processLines (l :: chunk :: rest) acc = processLines rest acc) := by
  refine ⟨?_, ?_, ?_⟩
  · intro v hv
    simp [parseChunk, hv]
  · intro hnone
    simp [parseChunk, hnone]
  · intro l rest acc hlen hchunk
    obtain ⟨k, hk⟩ := Option.isSome_iff_exists.mp hlen
    rw [processLines.eq_def]
    simp [pystrip_ne_empty_of_pyInt_isSome hlen, hk, hchunk]

/-- Witness for C6: the chunk `"[[]]"` parses directly; the chunk `"@@"`
fails both parses and is skipped while the loop continues. -/
theorem chunk_parse_fallback_witness :
    parseChunk "[[]]" = some (JValue.arr [JValue.arr []]) ∧
    processLines ["1", "@@", "5", "[[1]]"] [] = processLines ["5", "[[1]]"] [] :=
  ⟨(chunk_parse_fallback "[[]]").1 (JValue.arr [JValue.arr []]) rfl,
   (chunk_parse_fallback "@@").2.2 "1" ["5", "[[1]]"] [] rfl rfl⟩

/-- C9: the numeric value on a length line is parsed but never used: at any
point of the loop, two length lines that both parse as integers lead to the
same continuation — the chunk is always exactly the next line — so bodies
differing only in such a value decode identically. -/
theorem length_value_unused (l1 l2 : String) (rest : List String)
    (acc : List Response)
    (h1 : (pyInt (pystrip l1)).isSome = true)
    (h2 : (pyInt (pystrip l2)).isSome = true) :
    processLines (l1 :: rest) acc = processLines (l2 :: rest) acc := by
  obtain ⟨k1, hk1⟩ := Option.isSome_iff_exists.mp h1
  obtain ⟨k2, hk2⟩ := Option.isSome_iff_exists.mp h2
  conv_lhs => rw [processLines.eq_def]
  conv_rhs => rw [processLines.eq_def]
  simp [pystrip_ne_empty_of_pyInt_isSome h1,
        pystrip_ne_empty_of_pyInt_isSome h2, hk1, hk2]

/-- Witness for C9: the length values 1 and 999 give identical decodes. -/
theorem length_value_unused_witness :
    processLines ["1", "[[\"wrb.fr\",\"a\",null,0,0,0,\"generic\"]]"] [] =
    processLines ["999", "[[\"wrb.fr\",\"a\",null,0,0,0,\"generic\"]]"] [] :=
  length_value_unused "1" "999" ["[[\"wrb.fr\",\"a\",null,0,0,0,\"generic\"]]"]
    [] rfl rfl

/-- C7: in both decode paths a tuple (an array item of a parsed chunk)
yields a `Response` exactly when it has at least 7 positional fields and its
first field is the literal string "wrb.fr"; every other tuple is skipped
with `Except.ok none` — silently and non-fatally — and a skipped tuple
leaves the decoder output unchanged, so it is absent from it. -/
theorem tuple_keep_rule :
    (∀ f0 f1 f2 f3 f4 f5 f6 rest, f0 = JValue.str "wrb.fr" →
      stepChunked (JValue.arr (f0 :: f1 :: f2 :: f3 :: f4 :: f5 :: f6 :: rest)) =
        Except.ok (some ⟨f1, chunkedPayload f2, indexVal f6, ""⟩) ∧
      stepPlain (JValue.arr (f0 :: f1 :: f2 :: f3 :: f4 :: f5 :: f6 :: rest)) =
        Except.ok (some ⟨f1, f2, indexVal f6, ""⟩)) ∧
    (∀ f0 f1 f2 f3 f4 f5 f6 rest, f0 ≠ JValue.str "wrb.fr" →
      stepChunked (JValue.arr (f0 :: f1 :: f2 :: f3 :: f4 :: f5 :: f6 :: rest)) =
        Except.ok none ∧
      stepPlain (JValue.arr (f0 :: f1 :: f2 :: f3 :: f4 :: f5 :: f6 :: rest)) =
        Except.ok none) ∧
    (∀ fields, fields.length < 7 →
      stepChunked (JValue.arr fields) = Except.ok none ∧
      stepPlain (JValue.arr fields) = Except.ok none) ∧
    (∀ step d rest, step d = Except.ok none →
      runItems step (d :: rest) = runItems step rest) := by
  refine ⟨?_, ?_, ?_, ?_⟩
  · intro f0 f1 f2 f3 f4 f5 f6 rest h
    subst h
    constructor <;> simp [stepChunked, stepPlain, pyLen, jGet]
  · intro f0 f1 f2 f3 f4 f5 f6 rest h
    constructor <;>
      (cases f0 <;> simp_all [stepChunked, stepPlain, pyLen, jGet])
  · intro fields h
    constructor <;> simp [stepChunked, stepPlain, pyLen, h]
  · intro step d rest h
    simp [runItems, h]

/-- Witness for C7: a kept tuple, a mismatched tag, and a short tuple. -/
theorem tuple_keep_rule_witness :
    stepChunked (JValue.arr [JValue.str "wrb.fr", JValue.str "a", JValue.null,
        JValue.null, JValue.null, JValue.null, JValue.str "generic"]) =
      Except.ok (some ⟨JValue.str "a", chunkedPayload JValue.null,
        indexVal (JValue.str "generic"), ""⟩) ∧
    stepPlain (JValue.arr [JValue.str "xx", JValue.str "a", JValue.null,
        JValue.null, JValue.null, JValue.null, JValue.str "generic"]) =
      Except.ok none ∧
    stepChunked (JValue.arr [JValue.str "wrb.fr"]) = Except.ok none :=
  ⟨(tuple_keep_rule.1 _ (JValue.str "a") JValue.null JValue.null JValue.null
      JValue.null (JValue.str "generic") [] rfl).1,
   (tuple_keep_rule.2.1 (JValue.str "xx") (JValue.str "a") JValue.null
      JValue.null JValue.null JValue.null (JValue.str "generic") []
      (by simp)).2,
   (tuple_keep_rule.2.2.1 [JValue.str "wrb.fr"] (by simp)).1⟩

/-- C8: in the chunked path, a kept tuple with a string payload in field 2
has the payload parsed as JSON (directly, then — on failure — by reading the
whole field as a JSON string literal and parsing the unescaped result); a
successful parse is re-serialized to a canonical JSON string in the record;
if both parses fail the raw string is stored unchanged. -/
theorem chunked_payload_rule (s : String) :
    (∀ v, jsonParse s = some v →
      chunkedPayload (JValue.str s) = JValue.str (jsonDumps v)) ∧
    (∀ u v, jsonParse s = none → jsonParse (quoteStr s) = some (JValue.str u) →
      jsonParse u = some v →
      chunkedPayload (JValue.str s) = JValue.str (jsonDumps v)) ∧
    (∀ u, jsonParse s = none → jsonParse (quoteStr s) = some (JValue.str u) →
      jsonParse u = none → chunkedPayload (JValue.str s) = JValue.str s) ∧
    (jsonParse s = none → (∀ u, jsonParse (quoteStr s) ≠ some (JValue.str u)) →
      chunkedPayload (JValue.str s) = JValue.str s) ∧
    (∀ f1 x3 x4 x5 f6,
      stepChunked (JValue.arr [JValue.str "wrb.fr", f1, JValue.str s, x3, x4,
          x5, f6]) =
        Except.ok (some ⟨f1, chunkedPayload (JValue.str s), indexVal f6, ""⟩)) := by
  refine ⟨?_, ?_, ?_, ?_, ?_⟩
  · intro v hv
    simp [chunkedPayload, hv]
  · intro u v h hq hu
    simp [chunkedPayload, h, hq, hu]
  · intro u h hq hu
    simp [chunkedPayload, h, hq, hu]
  · intro h hq
    cases hq2 : jsonParse (quoteStr s) with
    | none => simp [chunkedPayload, h, hq2]
    | some v =>
      cases v with
      | str u => exact absurd hq2 (hq u)
      | null => simp [chunkedPayload, h, hq2]
      | bool b => simp [chunkedPayload, h, hq2]
      | num n => simp [chunkedPayload, h, hq2]
      | arr xs => simp [chunkedPayload, h, hq2]
      | obj kvs => simp [chunkedPayload, h, hq2]
  · intro f1 x3 x4 x5 f6
    simp [stepChunked, pyLen, jGet]

/-- Witness for C8: a directly-parsed payload, an unescape-recovered
payload, and an unparseable payload kept raw. -/
theorem chunked_payload_rule_witness :
    chunkedPayload (JValue.str "[1]") =
      JValue.str (jsonDumps (JValue.arr [JValue.num 1])) ∧
    chunkedPayload (JValue.str "[\\\"x\\\"]") =
      JValue.str (jsonDumps (JValue.arr [JValue.str "x"])) ∧
    chunkedPayload (JValue.str "@") = JValue.str "@" :=
  ⟨(chunked_payload_rule "[1]").1 (JValue.arr [JValue.num 1]) rfl,
   (chunked_payload_rule "[\\\"x\\\"]").2.1 "[\"x\"]"
      (JValue.arr [JValue.str "x"]) rfl rfl rfl,
   (chunked_payload_rule "@").2.2.1 "@" rfl rfl rfl⟩

/-- C10: a kept tuple whose field 2 is non-null but not a string produces a
record whose payload is `None` in the chunked path — the value is dropped —
while the plain path passes field 2 through unchanged. -/
theorem nonstring_payload_divergence (f2 f1 x3 x4 x5 f6 : JValue)
    (hnn : f2 ≠ JValue.null) (hns : ∀ s, f2 ≠ JValue.str s) :
    stepChunked (JValue.arr [JValue.str "wrb.fr", f1, f2, x3, x4, x5, f6]) =
      Except.ok (some ⟨f1, JValue.null, indexVal f6, ""⟩) ∧
    stepPlain (JValue.arr [JValue.str "wrb.fr", f1, f2, x3, x4, x5, f6]) =
      Except.ok (some ⟨f1, f2, indexVal f6, ""⟩) := by
  have hcp : chunkedPayload f2 = JValue.null := by
    cases f2 with
    | str s => exact absurd rfl (hns s)
    | null => rfl
    | bool b => rfl
    | num n => rfl
    | arr xs => rfl
    | obj kvs => rfl
  constructor <;> simp [stepChunked, stepPlain, pyLen, jGet, hcp]

/-- Witness for C10, at the already-parsed array payload `[1]`. -/
theorem nonstring_payload_divergence_witness :
    stepChunked (JValue.arr [JValue.str "wrb.fr", JValue.str "p",
        JValue.arr [JValue.num 1], JValue.null, JValue.null, JValue.null,
        JValue.str "generic"]) =
      Except.ok (some ⟨JValue.str "p", JValue.null,
        indexVal (JValue.str "generic"), ""⟩) ∧
    stepPlain (JValue.arr [JValue.str "wrb.fr", JValue.str "p",
        JValue.arr [JValue.num 1], JValue.null, JValue.null, JValue.null,
        JValue.str "generic"]) =
      Except.ok (some ⟨JValue.str "p", JValue.arr [JValue.num 1],
        indexVal (JValue.str "generic"), ""⟩) :=
  nonstring_payload_divergence (JValue.arr [JValue.num 1]) (JValue.str "p")
    JValue.null JValue.null JValue.null (JValue.str "generic")
    (fun h => nomatch h) (fun _ h => nomatch h)

/-- A failing `stepPlain` can only raise the `TypeError` of `len()`/indexing
on a non-sequence item. -/
theorem stepPlain_error_typeError (d : JValue) (e : DecodeErr)
    (h : stepPlain d = Except.error e) : e = DecodeErr.typeError := by
  unfold stepPlain at h
  repeat' split at h
  all_goals first
    | (injection h with h2; exact h2.symm)
    | simp at h

/-- A failing item loop inherits its error from a failing item. -/
theorem runItems_error_typeError
    (step : JValue → Except DecodeErr (Option Response))
    (hstep : ∀ d e, step d = Except.error e → e = DecodeErr.typeError) :
    ∀ items e, runItems step items = Except.error e →
      e = DecodeErr.typeError := by
  intro items
  induction items with
  | nil =>
    intro e h
    simp [runItems] at h
  | cons d rest ih =>
    intro e h
    unfold runItems at h
    cases hd : step d with
    | error e2 =>
      rw [hd] at h
      injection h with h2
      rw [← h2]
      exact hstep d e2 hd
    | ok o =>
      rw [hd] at h
      cases o with
      | none => exact ih e h
      | some r =>
        cases hr : runItems step rest with
        | error e2 =>
          rw [hr] at h
          injection h with h2
          rw [← h2]
          exact ih e2 hr
        | ok rs =>
          rw [hr] at h
          simp at h

/-- C3 as stated fails on the plain path: this body strips to zero kept
records (the tag is not "wrb.fr"), yet `decode_response` returns the empty
list instead of raising `EmptyResultError`. -/
def c3Body : String := "[[\"xx\",\"a\",null,0,0,0,\"generic\"]]"

/-- Counterexample to C3 as stated: on a body whose only tuple has a
mismatched tag, the plain decode path returns `[]` without raising. -/
theorem plain_decode_returns_empty :
    decodeResponse c3Body = Except.ok ([] : List Response) := rfl

/-- C3 (amended): on zero kept records the chunked path raises
`EmptyResultError` (it never returns an empty list), while the plain path
never raises `EmptyResultError` and instead returns the empty list, which
`execute` then turns into the "No valid responses found" error. -/
theorem zero_records_error_split :
    (∀ raw l, decodeChunkedResponse raw = Except.ok l → l ≠ []) ∧
    (∀ raw, decodeResponse raw ≠ Except.error DecodeErr.emptyResult) ∧
    (∀ raw e, decodeChunkedResponse raw = Except.error e →
      decodeResponse raw = Except.ok [] →
      executeOnBody 200 raw = Except.error ExecErr.noValidResponses) := by
  refine ⟨?_, ?_, ?_⟩
  · intro raw l h
    simp only [decodeChunkedResponse] at h
    split at h
    · simp at h
    · split at h
      · simp at h
      · split at h
        · simp at h
        · injection h with h2
          rw [← h2]
          assumption
  · intro raw h
    simp only [decodeResponse] at h
    split at h
    · simp at h
    · split at h
      · simp at h
      · rename_i data _
        unfold processBatch at h
        split at h
        · simp at h
        · exact absurd
            (runItems_error_typeError stepPlain stepPlain_error_typeError _ _ h)
            (by simp)
  · intro raw e h1 h2
    simp [executeOnBody, h1, h2]

/-- Witness for C3: a one-record body is never returned empty by the chunked
path, and on `c3Body` (chunked decode fails, plain decode returns `[]`)
`execute` raises "No valid responses found". -/
theorem zero_records_error_split_witness :
    ([(⟨JValue.str "a", JValue.null, 0, ""⟩ : Response)] ≠ ([] : List Response)) ∧
    executeOnBody 200 c3Body = Except.error ExecErr.noValidResponses :=
  ⟨zero_records_error_split.1 "5\n[[\"wrb.fr\",\"a\",null,0,0,0,\"generic\"]]"
      [⟨JValue.str "a", JValue.null, 0, ""⟩] rfl,
   zero_records_error_split.2.2 c3Body DecodeErr.framing rfl rfl⟩

/-- A chunked body carrying two kept records, used to show that `execute`
surfaces only the first one. -/
def c1Body : String :=
  "10\n[[\"wrb.fr\",\"a\",null,0,0,0,\"generic\"],[\"wrb.fr\",\"b\",null,0,0,0,\"generic\"]]"

/-- Counterexample to C1 as stated: the decoder keeps two records in stream
order, but the batch `execute` returns only the first of them — the second
kept record is absent from its result. -/
theorem batch_execute_drops_records :
    decodeChunkedResponse c1Body =
      Except.ok [⟨JValue.str "a", JValue.null, 0, ""⟩,
                 ⟨JValue.str "b", JValue.null, 0, ""⟩] ∧
    executeRpcs [⟨"r1", [], "generic", []⟩, ⟨"r2", [], "generic", []⟩] 200
        c1Body =
      Except.ok ⟨JValue.str "a", JValue.null, 0, ""⟩ ∧
    (⟨JValue.str "b", JValue.null, 0, ""⟩ : Response) ≠
      ⟨JValue.str "a", JValue.null, 0, ""⟩ := by
  refine ⟨rfl, rfl, ?_⟩
  simp [Response.mk.injEq]

/-- C1 (amended): the decoder produces all kept records in stream order, but
the batch `execute` returns only the first of them; the single-call `do` is
literally `execute([rpc])` and returns that same first kept record. -/
theorem execute_returns_first_record (rpcs : List RPC) (rpc : RPC)
    (body : String) (r : Response) (rest : List Response)
    (h : decodeChunkedResponse body = Except.ok (r :: rest)) :
    executeRpcs rpcs 200 body = Except.ok r ∧
    doRpc rpc 200 body = Except.ok r := by
  constructor <;> simp [executeRpcs, doRpc, executeOnBody, h]

/-- Witness for C1 (amended), at a concrete one-record body. -/
theorem execute_returns_first_record_witness :
    executeRpcs [⟨"r1", [], "generic", []⟩] 200
        "5\n[[\"wrb.fr\",\"w\",null,0,0,0,\"generic\"]]" =
      Except.ok ⟨JValue.str "w", JValue.null, 0, ""⟩ ∧
    doRpc ⟨"r1", [], "generic", []⟩ 200
        "5\n[[\"wrb.fr\",\"w\",null,0,0,0,\"generic\"]]" =
      Except.ok ⟨JValue.str "w", JValue.null, 0, ""⟩ :=
  execute_returns_first_record [⟨"r1", [], "generic", []⟩]
    ⟨"r1", [], "generic", []⟩ "5\n[[\"wrb.fr\",\"w\",null,0,0,0,\"generic\"]]"
    ⟨JValue.str "w", JValue.null, 0, ""⟩ [] rfl

/-- Counterexample to C2 as stated: a Call carrying index tag "7" is encoded
with fourth element `"generic"`, not its own index tag. -/
theorem envelope_ignores_index :
    buildRpcData ⟨"x", [], "7", []⟩ =
      JValue.arr [JValue.str "x", JValue.str "[]", JValue.null,
                  JValue.str "generic"] ∧
    JValue.str "generic" ≠ JValue.str "7" :=
  ⟨rfl, by simp⟩

/-- C2 (amended): each Call is encoded as the 4-element tuple
`[id, json(args), null, "generic"]` — the fourth element is the hard-coded
literal, the Call's index tag is ignored — and the batch is wrapped as
`[[tuple, ...]]`, JSON-serialized once more into form field `f.req`, with
the auth token in form field `at`. -/
theorem envelope_encoding (rpcs : List RPC) (tok : String) :
    (∀ i rpc, rpcs.get? i = some rpc →
      (rpcs.map buildRpcData).get? i =
        some (JValue.arr [JValue.str rpc.id,
          JValue.str (jsonDumps (JValue.arr rpc.args)), JValue.null,
          JValue.str "generic"])) ∧
    buildFormData rpcs tok =
      [("f.req", jsonDumps (JValue.arr [JValue.arr (rpcs.map buildRpcData)])),
       ("at", tok)] := by
  constructor
  · intro i rpc h
    rw [List.get?_eq_getElem?, List.getElem?_map,
        ← List.get?_eq_getElem?, h]
    rfl
  · rfl

/-- Witness for C2 (amended), at a one-call batch. -/
theorem envelope_encoding_witness :
    ([(⟨"x", [JValue.num 1], "generic", []⟩ : RPC)].map buildRpcData).get? 0 =
      some (JValue.arr [JValue.str "x",
        JValue.str (jsonDumps (JValue.arr [JValue.num 1])), JValue.null,
        JValue.str "generic"]) :=
  (envelope_encoding [⟨"x", [JValue.num 1], "generic", []⟩] "tok").1 0
    ⟨"x", [JValue.num 1], "generic", []⟩ rfl

end Batchexecute
